import Mathlib

/-!
Shallow embedding of the email-kanban backend synchronization core
(src/backend/database.py, src/backend/main.py, src/backend/providers.py).

The SQLite item store is modelled as a list of rows; Python dict values of
string-or-None type are modelled as `Option String`, with Python truthiness
made explicit (`None` and the empty string are falsy).  Remote calls
(provider fetch, OAuth token refresh, remote archive) are oracles passed in
as `Except` values.  Timestamps are integer seconds.
-/

namespace EmailKanban

/-- Python truthiness for an optional string: `None` and `""` are falsy. -/
def truthy : Option String → Bool
  | none => false
  | some s => s ≠ ""

/-- Python `a or b` on optional strings: returns `a` when truthy, else `b`. -/
def pyOr (a b : Option String) : Option String :=
  if truthy a then a else b

/-- A raw provider item dict, with the fields read by `upsert_items`
(`database.py`): id, title/subject, sender, content, date-like fields. -/
structure Item where
  id : String
  title : Option String := none
  subject : Option String := none
  sender : Option String := none
  content : Option String := none
  date : Option String := none
  receivedDateTime : Option String := none
  dueDate : Option String := none
deriving Repr, DecidableEq

/-- One row of the `items` table (`database.py` `init_db`): the primary key
is the `id` column alone. -/
structure Row where
  id : String
  account_id : String
  type : String
  title : Option String
  sender : Option String
  content : Option String
  date : Option String
  data : Item
  synced_at : Int
deriving Repr, DecidableEq

/-- The row written for one item by `upsert_items` (`database.py` lines
190-210): column values use Python `or` chains on the item dict. -/
def mkRow (account_id item_type : String) (now : Int) (item : Item) : Row :=
  { id := item.id
    account_id := account_id
    type := item_type
    title := pyOr item.title item.subject
    sender := item.sender
    content := item.content
    date := pyOr item.date (pyOr item.receivedDateTime item.dueDate)
    data := item
    synced_at := now }

/-- Effect of one `INSERT OR REPLACE` into `items`: the conflicting row
(same primary key `id`, regardless of account) is deleted, then the new
row is inserted. -/
def upsertOne (account_id item_type : String) (now : Int) (db : List Row)
    (item : Item) : List Row :=
  db.filter (fun r => r.id != item.id) ++ [mkRow account_id item_type now item]

/-- Embedding of `upsert_items` (`database.py`): one `INSERT OR REPLACE` per item, in
list order. -/
def upsert_items (account_id item_type : String) (now : Int)
    (items : List Item) (db : List Row) : List Row :=
  items.foldl (upsertOne account_id item_type now) db

/-- Embedding of `delete_item` (`database.py` lines 246-251): `DELETE FROM items WHERE
id = ?` — selects by `id` alone, no account or type condition. -/
def delete_item (item_id : String) (db : List Row) : List Row :=
  db.filter (fun r => r.id != item_id)

/-- Embedding of `clear_account_items` (`database.py` lines 254-267). -/
def clear_account_items (account_id : String) (item_type : Option String)
    (db : List Row) : List Row :=
  match item_type with
  | some t => db.filter (fun r => !(r.account_id == account_id && r.type == t))
  | none => db.filter (fun r => r.account_id != account_id)

/-- Ordering used by `ORDER BY date DESC` in SQLite: `NULL` sorts below
every string, `DESC` reverses, so `NULL` dates come last. -/
def optDateLe (a b : Option String) : Bool :=
  match a, b with
  | none, _ => true
  | some _, none => false
  | some s, some t => decide (s ≤ t)

/-- Insert into a list sorted by `le`. -/
def insertSorted {α : Type} (le : α → α → Bool) (x : α) : List α → List α
  | [] => [x]
  | y :: ys => if le x y then x :: y :: ys else y :: insertSorted le x ys

/-- Insertion sort by a boolean comparison. -/
def sortByLe {α : Type} (le : α → α → Bool) : List α → List α
  | [] => []
  | x :: xs => insertSorted le x (sortByLe le xs)

/-- Embedding of `get_items` (`database.py` lines 213-243): filter by account, optional
type and optional date bounds, order by date descending, return the
stored item payloads. -/
def get_items (account_id : String) (item_type : Option String)
    (start_date end_date : Option String) (db : List Row) : List Item :=
  let p := fun (r : Row) =>
    (r.account_id == account_id) &&
    (match item_type with | some t => r.type == t | none => true) &&
    (match start_date with
     | some s => (match r.date with | some d => decide (s ≤ d) | none => false)
     | none => true) &&
    (match end_date with
     | some e => (match r.date with | some d => decide (d ≤ e) | none => false)
     | none => true)
  ((sortByLe (fun a b => optDateLe b.date a.date) (db.filter p)).map (·.data))

/-- Embedding of `get_last_sync` (`database.py` lines 270-283): `MAX(synced_at)` over
the account's rows of the given type; `None` when no row matches. -/
def get_last_sync (account_id item_type : String) (db : List Row) :
    Option Int :=
  ((db.filter (fun r =>
      r.account_id == account_id && r.type == item_type)).map
    (·.synced_at)).max?

/-- Decrypted account configuration dict, with the keys read by
`get_valid_token` and the iCloud branch of `get_account_items`. -/
structure Config where
  access_token : Option String := none
  refresh_token : Option String := none
  expires_at : Option Int := none
  shared_mailbox : Option String := none
  icloud_email : Option String := none
  icloud_app_password : Option String := none
deriving Repr, DecidableEq

/-- Token endpoint response dict, with the keys read by the refresh path
of `get_valid_token` (`main.py` lines 334-338). -/
structure TokenResp where
  access_token : Option String := none
  refresh_token : Option String := none
  expires_in : Option Int := none
deriving Repr, DecidableEq

/-- Embedding of `get_oauth_provider` (`oauth.py` lines 174-196): it returns an adapter for
exactly these provider strings and `None` otherwise. -/
def oauthProviderKnown (provider : String) : Bool :=
  provider == "office365" || provider == "office365-shared" ||
    provider == "gmail" || provider == "ticktick"

/-- Observable effects of `get_valid_token`, in execution order: the
remote refresh call and the `update_account` persistence write. -/
inductive TokenEvent where
  | refreshCall (refresh_token : String)
  | persist (cfg : Config)
deriving Repr, DecidableEq

/-- Result of `get_valid_token`: either the returned access token (the
refreshed value may be absent when the response omitted one, since the
code stores `tokens.get("access_token")` unchecked) or a raised
`HTTPException` with status and detail. -/
inductive TokenGetResult where
  | ok (token : Option String)
  | httpError (status : Nat) (detail : String)
deriving Repr, DecidableEq

/-- Embedding of `get_valid_token` (`main.py` lines 314-345).  `now` is the clock value
at the expiry check (line 325) and `now2` the one used for the new expiry
(line 338); `refreshOutcome` is the outcome of the remote refresh call.
Returns the result, the final in-memory config, and the effect trace. -/
def get_valid_token (provider : String) (cfg : Config) (now now2 : Int)
    (refreshOutcome : Except String TokenResp) :
    TokenGetResult × Config × List TokenEvent :=
  let expires_at := cfg.expires_at.getD 0
  if ¬ truthy cfg.access_token then
    (.httpError 401 "Account not authorized", cfg, [])
  else if now > expires_at - 300 then
    if ¬ truthy cfg.refresh_token then
      (.httpError 401 "Token expired, please re-authorize", cfg, [])
    else if ¬ oauthProviderKnown provider then
      (.httpError 400 "Unknown provider", cfg, [])
    else
      match refreshOutcome with
      | .error e =>
        (.httpError 401 ("Token refresh failed: " ++ e), cfg,
          [.refreshCall (cfg.refresh_token.getD "")])
      | .ok tokens =>
        let cfg1 := { cfg with access_token := tokens.access_token }
        let cfg2 :=
          if truthy tokens.refresh_token then
            { cfg1 with refresh_token := tokens.refresh_token }
          else cfg1
        let cfg3 := { cfg2 with
          expires_at := some (now2 + tokens.expires_in.getD 3600) }
        (.ok cfg3.access_token, cfg3,
          [.refreshCall (cfg.refresh_token.getD ""), .persist cfg3])
  else
    (.ok cfg.access_token, cfg, [])

/-- Body of the JSON response of `GET /accounts/.../items`.  The stale
cache fallback response carries no `last_sync` key, modelled as `none`. -/
structure ItemsResponse where
  items : List Item
  cached : Bool
  last_sync : Option Int
  error : Option String
deriving Repr, DecidableEq

/-- Outcome of the items endpoint: a JSON response or a raised
`HTTPException`. -/
inductive ApiResult where
  | ok (r : ItemsResponse)
  | httpError (status : Nat) (detail : String)
deriving Repr, DecidableEq

/-- The TTL test of `main.py` line 370:
`(datetime.utcnow() - last_sync).seconds < 300`.  Python's
`timedelta.seconds` is the seconds component after normalization, i.e.
the total seconds modulo 86400 (days are discarded). -/
def cacheFresh (now : Int) (last_sync : Option Int) : Bool :=
  match last_sync with
  | some ls => (now - ls) % 86400 < 300
  | none => false

/-- Embedding of `get_account_items` (`main.py` lines 351-422).  `refreshOutcome` is
the remote token-refresh oracle and `fetchOutcome` the remote provider
fetch oracle (provider fetch failures are generic exceptions, never
`HTTPException`).  Returns the endpoint outcome and the resulting item
store. -/
def get_account_items (account_id provider email : String) (cfg : Config)
    (force_refresh : Bool) (now : Int)
    (refreshOutcome : Except String TokenResp)
    (fetchOutcome : Except String (List Item))
    (db : List Row) : ApiResult × List Row :=
  let item_type := if provider == "ticktick" then "task" else "email"
  let last_sync := get_last_sync account_id item_type db
  if !force_refresh && cacheFresh now last_sync then
    (.ok { items := get_items account_id (some item_type) none none db
           cached := true
           last_sync := last_sync
           error := none }, db)
  else
    let fetchStep : Except (Nat × String) (Except String (List Item)) :=
      if provider == "icloud" then
        if !truthy cfg.icloud_email || !truthy cfg.icloud_app_password then
          .error (401, "iCloud credentials not configured")
        else .ok fetchOutcome
      else
        match (get_valid_token provider cfg now now refreshOutcome).1 with
        | .httpError s d => .error (s, d)
        | .ok _ =>
          if provider == "office365" || provider == "office365-shared" then
            .ok fetchOutcome
          else if provider == "gmail" then .ok fetchOutcome
          else if provider == "yahoo" then
            if email == "" then .error (401, "Yahoo email address not found")
            else .ok fetchOutcome
          else if provider == "ticktick" then .ok fetchOutcome
          else .error (400, ("Unknown provider: " ++ provider))
    match fetchStep with
    | .error sd => (.httpError sd.1 sd.2, db)
    | .ok (.error e) =>
      let items := get_items account_id (some item_type) none none db
      if items.isEmpty then (.httpError 500 e, db)
      else
        (.ok { items := items
               cached := true
               last_sync := none
               error := some e }, db)
    | .ok (.ok items) =>
      let db1 := clear_account_items account_id (some item_type) db
      let db2 := upsert_items account_id item_type now items db1
      (.ok { items := items
             cached := false
             last_sync := some now
             error := none }, db2)

/-- Outcome of the archive endpoint: success, a raised `HTTPException`,
or an unhandled exception from the remote mutation. -/
inductive ActionResult where
  | ok
  | httpError (status : Nat) (detail : String)
  | exc (e : String)
deriving Repr, DecidableEq

/-- Embedding of `archive_email` (`main.py` lines 434-455): token step, provider
dispatch, remote archive, then `delete_item(email_id)` on the cache.
`archiveOutcome` is the remote mutation oracle. -/
def archive_email (provider : String) (cfg : Config) (now : Int)
    (refreshOutcome : Except String TokenResp)
    (archiveOutcome : Except String Unit)
    (email_id : String) (db : List Row) : ActionResult × List Row :=
  match (get_valid_token provider cfg now now refreshOutcome).1 with
  | .httpError s d => (.httpError s d, db)
  | .ok _ =>
    if provider == "office365" || provider == "office365-shared" ||
        provider == "gmail" then
      match archiveOutcome with
      | .error e => (.exc e, db)
      | .ok _ => (.ok, delete_item email_id db)
    else (.httpError 400 "Provider does not support archive", db)

/-- Python `str.upper()` restricted to its effect on ASCII letters,
modelled character-by-character (the kind tags compared against are
ASCII). -/
def pyUpper (s : String) : String :=
  String.mk (s.data.map Char.toUpper)

/-- A raw TickTick task record, with the fields read by the filter and
transform loop of `TickTickProvider.get_tasks` (`providers.py` lines
260-288).  `projectId` and `projectName` have been attached by the
per-project fetch loop before this point. -/
structure RawTask where
  id : String
  projectId : String := ""
  projectName : Option String := none
  kind : Option String := none
  title : Option String := none
  content : Option String := none
  dueDate : Option String := none
  startDate : Option String := none
  completedTime : Option String := none
  status : Option Int := none
  priority : Option Int := none
deriving Repr, DecidableEq

/-- A normalized task dict as built by `get_tasks`. -/
structure TaskItem where
  id : String
  projectId : String
  projectName : String
  title : String
  content : String
  dueDate : Option String
  completedTime : Option String
  isCompleted : Bool
  priority : Int
  webLink : String
  provider : String
deriving Repr, DecidableEq

/-- The transform applied by `get_tasks` to a task that passed the
filter. -/
def ticktickTransform (t : RawTask) : TaskItem :=
  { id := t.id
    projectId := t.projectId
    projectName := t.projectName.getD "Inbox"
    title := t.title.getD ""
    content := t.content.getD ""
    dueDate := pyOr t.dueDate t.startDate
    completedTime := t.completedTime
    isCompleted := t.status == some 2
    priority := t.priority.getD 0
    webLink := "https://ticktick.com/webapp/#p/" ++ t.projectId ++
      "/tasks/" ++ t.id
    provider := "ticktick" }

/-- The filter-and-transform loop of `get_tasks` (`providers.py` lines
260-288): skip when `(kind or "").upper() == "NOTE"`, skip when the title
is falsy, skip when both `dueDate` and `startDate` are falsy; otherwise
emit the transformed task. -/
def ticktickFilterTasks : List RawTask → List TaskItem
  | [] => []
  | t :: rest =>
    if pyUpper (t.kind.getD "") == "NOTE" then ticktickFilterTasks rest
    else if !truthy t.title then ticktickFilterTasks rest
    else if !truthy t.dueDate && !truthy t.startDate then
      ticktickFilterTasks rest
    else ticktickTransform t :: ticktickFilterTasks rest

/-- Modelled from the spec: the spec's retention rule for task records
("entries tagged as pure notes are dropped; entries lacking both a title
and any date are dropped"), i.e. a record is kept whenever it is not a
note and has at least one of a title or a date.  Stated only to be
compared against `ticktickFilterTasks`, which is taken from the source. -/
def specKeepTask (t : RawTask) : Bool :=
  !(pyUpper (t.kind.getD "") == "NOTE") &&
    (truthy t.title || truthy t.dueDate || truthy t.startDate)

/-- A Gmail message-list HTTP response, with the fields read by the
paging loop of `GmailProvider.get_emails` (`providers.py` lines
122-141). -/
structure GResp where
  status : Nat
  messages : List String := []
  nextPageToken : Option String := none
deriving Repr, DecidableEq

/-- Fuel-indexed execution of the Gmail message-list paging loop
(`providers.py` lines 122-141).  `resps` is the stream of provider
responses, consumed one per request, `i` the index of the next response
and `acc` the accumulated message ids.  A 429 response sleeps and retries
the same request (consuming the next response); any other error status
raises (`raise_for_status`); a success accumulates and follows
`nextPageToken`.  `none` means the loop is still running after `fuel`
requests. -/
def gmailListPages : Nat → (Nat → GResp) → Nat → List String →
    Option (Except Nat (List String))
  | 0, _, _, _ => none
  | fuel + 1, resps, i, acc =>
    let r := resps i
    if r.status == 429 then gmailListPages fuel resps (i + 1) acc
    else if 400 ≤ r.status then some (.error r.status)
    else
      let acc2 := acc ++ r.messages
      match r.nextPageToken with
      | none => some (.ok acc2)
      | some _ => gmailListPages fuel resps (i + 1) acc2

/-- The Gmail message-list loop terminates on response stream `resps`
when some finite number of requests completes it. -/
def gmailListTerminates (resps : Nat → GResp) : Prop :=
  ∃ fuel, (gmailListPages fuel resps 0 []).isSome

/-- The in-memory OAuth state registry `oauth_states` (`main.py` line 37),
as a map from state token to its pending account binding. -/
structure StateData where
  account_id : String
  provider : String
deriving Repr, DecidableEq

/-- Registry of in-flight OAuth handshakes. -/
def StateRegistry : Type := String → Option StateData

/-- Embedding of the state-issuing step of `authorize` (`main.py` lines 145-156): bind a freshly issued state
token to the pending (account, provider) pair. -/
def issueState (state : String) (d : StateData) (r : StateRegistry) :
    StateRegistry :=
  fun s => if s = state then some d else r s

/-- Outcome of looking up and consuming a state token. -/
inductive ConsumeResult where
  | found (d : StateData)
  | notFound
deriving Repr, DecidableEq

/-- The state-consumption step of `oauth_callback` (`main.py` lines
165-168): a missing or empty token is invalid; otherwise the entry is
popped (removed unconditionally) and its binding returned. -/
def consumeState (state : String) (r : StateRegistry) :
    ConsumeResult × StateRegistry :=
  if state = "" then (.notFound, r)
  else
    match r state with
    | none => (.notFound, r)
    | some d => (.found d, fun s => if s = state then none else r s)

/-- The rows cached for one (account, item kind): a projection of the
store used to state cache invariants. -/
def rowsFor (account_id item_type : String) (db : List Row) : List Row :=
  db.filter (fun r => r.account_id == account_id && r.type == item_type)

/-- A sample cached email item. -/
def sampleItem : Item := { id := "m1", date := some "2025-01-01" }

/-- The cache row holding `sampleItem` for account `a1`, synced at 0. -/
def sampleRow : Row :=
  { id := "m1", account_id := "a1", type := "email", title := none,
    sender := none, content := none, date := some "2025-01-01",
    data := sampleItem, synced_at := 0 }

/-- An account configuration whose access token expired at time 0 but
which still holds a refresh token. -/
def expiredCfg : Config :=
  { access_token := some "tok", refresh_token := some "rt",
    expires_at := some 0 }

/-- An account configuration with a token valid far into the future. -/
def validCfg : Config :=
  { access_token := some "tok", expires_at := some 1000000 }

/-- A token-endpoint response carrying a new access token, no refresh
token, and a 100-second lifetime. -/
def newTokens : TokenResp :=
  { access_token := some "nt", expires_in := some 100 }

/-- An item of account `B` whose provider id collides with an item later
ingested for account `A`. -/
def crossItemB : Item := { id := "x" }

/-- The cached row of account `B` holding `crossItemB`. -/
def crossRowB : Row :=
  { id := "x", account_id := "B", type := "email", title := none,
    sender := none, content := none, date := none, data := crossItemB,
    synced_at := 0 }

/-- An item for account `A` sharing the provider id of `crossItemB`. -/
def crossItemA : Item := { id := "x", title := some "hi" }

/-- A task record with a title but neither a due date nor a start date. -/
def noDateTask : RawTask := { id := "t1", title := some "Call" }

/-- A response stream that is rate-limited twice, then succeeds with one
message and no further page. -/
def retryStream : Nat → GResp := fun n =>
  if n < 2 then { status := 429 } else { status := 200, messages := ["m1"] }

/-- Two filters over a list commute. -/
theorem filter_comm {α : Type} (p q : α → Bool) (l : List α) :
    (l.filter p).filter q = (l.filter q).filter p := by
  rw [List.filter_filter, List.filter_filter]
  apply List.filter_congr
  intro a _
  exact Bool.and_comm (q a) (p a)

/-- A row untouched by one `INSERT OR REPLACE` (different id) survives. -/
theorem mem_upsertOne (A T : String) (now : Int) (i : Item) {r : Row}
    {db : List Row} (hr : r ∈ db) (hid : r.id ≠ i.id) :
    r ∈ upsertOne A T now db i := by
  unfold upsertOne
  exact List.mem_append_left _
    (List.mem_filter.mpr ⟨hr, by simpa using hid⟩)

/-- A row whose id collides with no ingested item survives `upsert_items`. -/
theorem mem_upsert_items (A T : String) (now : Int) (items : List Item) :
    ∀ {db : List Row} {r : Row}, r ∈ db → r.id ∉ items.map Item.id →
      r ∈ upsert_items A T now items db := by
  induction items with
  | nil => intro db r hr _; exact hr
  | cons i rest ih =>
    intro db r hr hid
    have h1 : r.id ≠ i.id := fun h => hid (by simp [h])
    have h2 : r.id ∉ rest.map Item.id := fun h => hid (by simp [h])
    exact ih (mem_upsertOne A T now i hr h1) h2

/-- One `INSERT OR REPLACE` preserves uniqueness of the primary key. -/
theorem nodup_ids_upsertOne (A T : String) (now : Int) (i : Item)
    {db : List Row} (h : (db.map Row.id).Nodup) :
    ((upsertOne A T now db i).map Row.id).Nodup := by
  unfold upsertOne
  rw [List.map_append]
  apply List.Nodup.append
  · exact List.Nodup.sublist
      (List.Sublist.map Row.id (List.filter_sublist db)) h
  · exact List.nodup_singleton _
  · intro a ha hb
    simp [mkRow] at hb
    rcases List.mem_map.mp ha with ⟨r, hr, hra⟩
    rw [List.mem_filter] at hr
    have : r.id ≠ i.id := by simpa using hr.2
    exact this (hra.trans hb)

/-- `upsert_items` preserves uniqueness of the primary key. -/
theorem nodup_ids_upsert_items (A T : String) (now : Int)
    (items : List Item) :
    ∀ {db : List Row}, (db.map Row.id).Nodup →
      ((upsert_items A T now items db).map Row.id).Nodup := by
  induction items with
  | nil => intro db h; exact h
  | cons i rest ih =>
    intro db h
    exact ih (nodup_ids_upsertOne A T now i h)

/-- Projection of one `INSERT OR REPLACE` onto an (account, kind) scope:
the id-colliding row is dropped and the new row is appended. -/
theorem rowsFor_upsertOne (A T : String) (now : Int) (i : Item)
    (db : List Row) :
    rowsFor A T (upsertOne A T now db i)
      = (rowsFor A T db).filter (fun r => r.id != i.id)
          ++ [mkRow A T now i] := by
  unfold rowsFor upsertOne
  rw [List.filter_append, filter_comm]
  congr 1
  simp [mkRow, List.filter_cons]

/-- Clearing an (account, kind) scope empties its projection. -/
theorem rowsFor_clear (A T : String) (db : List Row) :
    rowsFor A T (clear_account_items A (some T) db) = [] := by
  unfold rowsFor clear_account_items
  rw [List.filter_eq_nil_iff]
  intro r hr
  rw [List.mem_filter] at hr
  have h2 := hr.2
  simp at h2 ⊢
  tauto

/-- Writing a batch with pairwise-distinct ids into a store whose scoped
rows avoid those ids appends exactly the batch rows to the scope. -/
theorem rowsFor_upsert_items (A T : String) (now : Int) :
    ∀ (items : List Item) (db : List Row),
      (∀ r ∈ rowsFor A T db, r.id ∉ items.map Item.id) →
      (items.map Item.id).Nodup →
      rowsFor A T (upsert_items A T now items db)
        = rowsFor A T db ++ items.map (mkRow A T now) := by
  intro items
  induction items with
  | nil => intro db _ _; simp [upsert_items]
  | cons i rest ih =>
    intro db hdisj hnodup
    have hkeep : (rowsFor A T db).filter (fun r => r.id != i.id)
        = rowsFor A T db := by
      rw [List.filter_eq_self]
      intro r hr
      have : r.id ≠ i.id := fun h => hdisj r hr (by simp [h])
      simpa using this
    have hstep := rowsFor_upsertOne A T now i db
    have hdisj2 : ∀ r ∈ rowsFor A T (upsertOne A T now db i),
        r.id ∉ rest.map Item.id := by
      intro r hr
      rw [hstep, hkeep] at hr
      rcases List.mem_append.mp hr with hl | hl
      · exact fun h => hdisj r hl (by simp [h])
      · have : r = mkRow A T now i := by simpa using hl
        rw [this]
        have := hnodup
        rw [List.map_cons, List.nodup_cons] at this
        simpa [mkRow] using this.1
    have hnodup2 : (rest.map Item.id).Nodup := by
      rw [List.map_cons, List.nodup_cons] at hnodup
      exact hnodup.2
    calc rowsFor A T (upsert_items A T now (i :: rest) db)
        = rowsFor A T (upsert_items A T now rest (upsertOne A T now db i)) :=
          rfl
      _ = rowsFor A T (upsertOne A T now db i)
            ++ rest.map (mkRow A T now) := ih _ hdisj2 hnodup2
      _ = rowsFor A T db ++ (i :: rest).map (mkRow A T now) := by
          rw [hstep, hkeep, List.map_cons, List.append_assoc]
          rfl

/-- A stream of nothing but 429 responses keeps the Gmail listing loop
running forever: no amount of fuel completes it. -/
theorem gmailListPages_all429 :
    ∀ (fuel i : Nat) (acc : List String),
      gmailListPages fuel (fun _ => { status := 429 }) i acc = none := by
  intro fuel
  induction fuel with
  | zero => intro i acc; rfl
  | succ n ih => intro i acc; simpa [gmailListPages] using ih (i + 1) acc

/-- Consecutive 429 responses are each retried; the first successful,
final-page response completes the loop with its messages. -/
theorem gmailListPages_retry (resps : Nat → GResp) :
    ∀ (k i : Nat) (acc : List String),
      (∀ j, j < k → (resps (i + j)).status = 429) →
      (resps (i + k)).status = 200 →
      (resps (i + k)).nextPageToken = none →
      gmailListPages (k + 1) resps i acc
        = some (.ok (acc ++ (resps (i + k)).messages)) := by
  intro k
  induction k with
  | zero =>
    intro i acc _ hok hlast
    rw [Nat.add_zero] at hok hlast
    simp [gmailListPages, hok, hlast]
  | succ n ih =>
    intro i acc h429 hok hlast
    have h0 : (resps i).status = 429 := by
      simpa using h429 0 (Nat.succ_pos n)
    have e : i + 1 + n = i + (n + 1) := by omega
    have h429' : ∀ j, j < n → (resps (i + 1 + j)).status = 429 := by
      intro j hj
      have := h429 (j + 1) (by omega)
      simpa [Nat.add_assoc, Nat.add_comm 1 j] using this
    have hok' : (resps (i + 1 + n)).status = 200 := by rw [e]; exact hok
    have hlast' : (resps (i + 1 + n)).nextPageToken = none := by
      rw [e]; exact hlast
    have hrec := ih (i + 1) acc h429' hok' hlast'
    rw [e] at hrec
    simpa [gmailListPages, h0] using hrec

/-- C1: exhibit of the TTL defect.  The account's only cached row was
synced a whole day (86400 s) before `now`, so `now − marker ≥ 300 s` and
the claim requires a fresh fetch; the code instead serves the cached
items with `cached = true`, because `timedelta.seconds` discards whole
days (`86400 % 86400 = 0 < 300`). -/
theorem C1_ttl_discards_days_exhibit :
    (86400 : Int) - 0 ≥ 300 ∧
    get_account_items "a1" "gmail" "" {} false 86400 (.ok {}) (.ok [])
        [sampleRow]
      = (.ok { items := [sampleItem], cached := true, last_sync := some 0,
               error := none }, [sampleRow]) := by
  constructor
  · decide
  · decide

/-- C3 counterexample: ingesting an item for account `A` whose provider
id equals the id of a row cached for account `B` removes `B`'s row (the
`items` primary key is the id alone), refuting "ingestion for one account
never removes or replaces another account's rows". -/
theorem C3_cross_account_replace_counterexample :
    crossRowB ∈ [crossRowB] ∧
    upsert_items "A" "email" 7 [crossItemA] [crossRowB]
      = [mkRow "A" "email" 7 crossItemA] ∧
    crossRowB ∉ upsert_items "A" "email" 7 [crossItemA] [crossRowB] := by
  refine ⟨by decide, by decide, by decide⟩

/-- C3 amended: ingestion keeps at most one row per provider item id
globally (the primary key), re-ingestion replaces rather than
duplicates (the rows carrying the ingested id are exactly the one new
row), and a row of any account survives whenever its id collides with no
ingested item — but a colliding row of another account is replaced, as
the counterexample shows. -/
theorem C3_upsert_invariant_amended (A T : String) (now : Int)
    (items : List Item) (i : Item) (db : List Row) :
    ((db.map Row.id).Nodup →
      ((upsert_items A T now items db).map Row.id).Nodup) ∧
    (upsert_items A T now [i] db).filter (fun r => r.id == i.id)
      = [mkRow A T now i] ∧
    (∀ r ∈ db, r.id ∉ items.map Item.id →
      r ∈ upsert_items A T now items db) := by
  refine ⟨fun h => nodup_ids_upsert_items A T now items h, ?_, ?_⟩
  · show (upsertOne A T now db i).filter (fun r => r.id == i.id)
      = [mkRow A T now i]
    unfold upsertOne
    rw [List.filter_append]
    have h1 : (db.filter (fun r => r.id != i.id)).filter
        (fun r => r.id == i.id) = [] := by
      rw [List.filter_filter]
      rw [List.filter_eq_nil_iff]
      intro r _
      simp
    rw [h1]
    simp [mkRow]
  · intro r hr hid
    exact mem_upsert_items A T now items hr hid

/-- C3 amended witness: the amended invariant evaluated at concrete
stores. -/
theorem C3_upsert_invariant_amended_witness :
    ((upsert_items "A" "email" 7 [crossItemA] [crossRowB]).map
        Row.id).Nodup ∧
    (upsert_items "A" "email" 7 [crossItemA] [crossRowB]).filter
        (fun r => r.id == crossItemA.id) = [mkRow "A" "email" 7 crossItemA] ∧
    sampleRow ∈ upsert_items "A" "email" 7 [crossItemA] [sampleRow] := by
  refine ⟨(C3_upsert_invariant_amended "A" "email" 7 [crossItemA] crossItemA
      [crossRowB]).1 (by decide),
    (C3_upsert_invariant_amended "A" "email" 7 [crossItemA] crossItemA
      [crossRowB]).2.1,
    (C3_upsert_invariant_amended "A" "email" 7 [crossItemA] crossItemA
      [sampleRow]).2.2 sampleRow (by decide) (by decide)⟩

/-- C4 counterexample: a task record with a title but no due date and no
start date is kept by the spec's rule (not a note, has a title) yet
dropped by the code, refuting "dropped iff note, or lacking both a title
and any date". -/
theorem C4_titled_undated_dropped_counterexample :
    specKeepTask noDateTask = true ∧
    ticktickFilterTasks [noDateTask] = [] := by
  refine ⟨by decide, by decide⟩

/-- C4 amended: task normalization drops a record iff it is tagged as a
note (case-insensitively), or lacks a (truthy) title, or lacks both a due
date and a start date; the retained records are transformed in order. -/
theorem C4_task_filter_amended (ts : List RawTask) :
    ticktickFilterTasks ts
      = (ts.filter (fun t =>
          !(pyUpper (t.kind.getD "") == "NOTE") && truthy t.title &&
            (truthy t.dueDate || truthy t.startDate))).map
          ticktickTransform := by
  induction ts with
  | nil => rfl
  | cons t rest ih =>
    by_cases h1 : pyUpper (t.kind.getD "") == "NOTE" <;>
      by_cases h2 : truthy t.title <;>
      by_cases h3 : truthy t.dueDate <;>
      by_cases h4 : truthy t.startDate <;>
        simp [ticktickFilterTasks, List.filter_cons, h1, h2, h3, h4, ih]

/-- C5 counterexample: on a provider that answers 429 forever, the Gmail
message-list loop never terminates — the retry is not bounded, refuting
"the fetch operation terminates for every sequence of provider
responses". -/
theorem C5_unbounded_retry_counterexample :
    ¬ gmailListTerminates (fun _ => { status := 429 }) := by
  rintro ⟨fuel, h⟩
  rw [gmailListPages_all429] at h
  simp at h

/-- C5 amended: each 429 response triggers a backoff-and-retry of that
single request without failing the batch, but the retry is unbounded:
the fetch terminates once the provider stops returning 429 — after any
finite burst of 429s followed by a successful final page, the loop
completes with that page's messages and no error. -/
theorem C5_retry_until_success_amended (resps : Nat → GResp) (k : Nat)
    (h429 : ∀ j, j < k → (resps j).status = 429)
    (hok : (resps k).status = 200)
    (hlast : (resps k).nextPageToken = none) :
    gmailListPages (k + 1) resps 0 [] = some (.ok (resps k).messages) := by
  have h := gmailListPages_retry resps k 0 []
    (by intro j hj; simpa using h429 j hj)
    (by simpa using hok) (by simpa using hlast)
  simpa using h

/-- C5 amended witness: two 429 responses followed by a success complete
the listing in three requests with the final page's messages. -/
theorem C5_retry_until_success_amended_witness :
    (∀ j, j < 2 → (retryStream j).status = 429) ∧
    (retryStream 2).status = 200 ∧
    (retryStream 2).nextPageToken = none ∧
    gmailListPages 3 retryStream 0 [] = some (.ok ["m1"]) := by
  refine ⟨by decide, by decide, by decide, ?_⟩
  have h := C5_retry_until_success_amended retryStream 2 (by decide)
    (by decide) (by decide)
  simpa [retryStream] using h

/-- C9: an issued OAuth state token is consumed exactly once — the first
consume returns its (account, provider) binding and removes the entry
unconditionally, so a second consume of the same token reports
not-found. -/
theorem C9_state_single_use (r : StateRegistry) (d : StateData)
    (state : String) (h : state ≠ "") :
    (consumeState state (issueState state d r)).1 = .found d ∧
    (consumeState state (issueState state d r)).2 state = none ∧
    (consumeState state
        ((consumeState state (issueState state d r)).2)).1 = .notFound := by
  refine ⟨?_, ?_, ?_⟩ <;> simp [consumeState, issueState, h]

/-- C9 witness: the single-use law at a concrete token and registry. -/
theorem C9_state_single_use_witness :
    (consumeState "s1"
        (issueState "s1" ⟨"a1", "gmail"⟩ (fun _ => none))).1
      = .found ⟨"a1", "gmail"⟩ ∧
    (consumeState "s1"
        ((consumeState "s1"
          (issueState "s1" ⟨"a1", "gmail"⟩ (fun _ => none))).2)).1
      = .notFound := by
  refine ⟨(C9_state_single_use (fun _ => none) ⟨"a1", "gmail"⟩ "s1"
      (by decide)).1,
    (C9_state_single_use (fun _ => none) ⟨"a1", "gmail"⟩ "s1"
      (by decide)).2.2⟩

/-- C2 counterexample: a forced fetch whose token step fails with a
refresh failure — an error that is neither not-authorized nor
reauthorization-required — propagates as a hard failure even though a
cached batch exists, refuting "every error other than not-authorized and
reauthorization-required is served from the stale cache when one
exists". -/
theorem C2_refresh_failure_not_masked_counterexample :
    get_items "a1" (some "email") none none [sampleRow] ≠ [] ∧
    get_account_items "a1" "gmail" "" expiredCfg true 1000 (.error "boom")
        (.ok []) [sampleRow]
      = (.httpError 401 "Token refresh failed: boom", [sampleRow]) := by
  refine ⟨by decide, by decide⟩

/-- C2 amended: only errors raised as `HTTPException` — not-authorized,
reauthorization-required, refresh-failed, unknown-provider and
missing-credential errors — propagate to the caller as-is; a generic
provider fetch error is served from the cached batch (with the error
attached) when one exists and becomes a 500 hard failure otherwise. -/
theorem C2_error_fallback_amended (account_id provider email
    item_type : String) (cfg : Config) (force_refresh : Bool) (now : Int)
    (refreshOutcome : Except String TokenResp) (t : Option String)
    (e : String) (db : List Row)
    (hty : item_type = if provider == "ticktick" then "task" else "email")
    (hmiss : (!force_refresh &&
      cacheFresh now (get_last_sync account_id item_type db)) = false) :
    ((provider = "office365" ∨ provider = "office365-shared" ∨
        provider = "gmail" ∨ provider = "ticktick") →
      (get_valid_token provider cfg now now refreshOutcome).1 = .ok t →
      (get_items account_id (some item_type) none none db ≠ [] →
        get_account_items account_id provider email cfg force_refresh now
            refreshOutcome (.error e) db
          = (.ok { items := get_items account_id (some item_type) none none
                     db,
                   cached := true, last_sync := none, error := some e },
             db)) ∧
      (get_items account_id (some item_type) none none db = [] →
        get_account_items account_id provider email cfg force_refresh now
            refreshOutcome (.error e) db
          = (.httpError 500 e, db))) ∧
    (∀ (s : Nat) (d : String), provider ≠ "icloud" →
      (get_valid_token provider cfg now now refreshOutcome).1
        = .httpError s d →
      ∀ fetchOutcome : Except String (List Item),
        get_account_items account_id provider email cfg force_refresh now
          refreshOutcome fetchOutcome db = (.httpError s d, db)) := by
  subst hty
  constructor
  · intro hp htok
    rcases hp with rfl | rfl | rfl | rfl <;>
    · simp at hmiss ⊢
      constructor
      · intro hne
        simp [get_account_items, htok, List.isEmpty_eq_false.mpr hne] <;>
          try exact hmiss
      · intro hnil
        simp [get_account_items, htok, List.isEmpty_iff.mpr hnil] <;>
          try exact hmiss
  · intro s d hni htok fetchOutcome
    simp at hmiss
    simp [get_account_items, htok, beq_eq_false_iff_ne.mpr hni]
    exact hmiss

/-- C2 amended witness: the amended propagation and fallback rules at
concrete inputs — a provider outage on a gmail account with one cached
row is served from cache with the error attached, and a refresh failure
propagates unmasked. -/
theorem C2_error_fallback_amended_witness :
    get_account_items "a1" "gmail" "" validCfg true 1000 (.ok {})
        (.error "providerdown") [sampleRow]
      = (.ok { items := [sampleItem], cached := true, last_sync := none,
               error := some "providerdown" }, [sampleRow]) ∧
    get_account_items "a1" "gmail" "" expiredCfg true 1000
        (.error "boom") (.error "providerdown") [sampleRow]
      = (.httpError 401 "Token refresh failed: boom", [sampleRow]) := by
  constructor
  · have h := ((C2_error_fallback_amended "a1" "gmail" "" "email" validCfg
      true 1000 (.ok {}) (some "tok") "providerdown" [sampleRow] (by decide)
      (by decide)).1 (by tauto) (by decide)).1 (by decide)
    simpa using h
  · have h := (C2_error_fallback_amended "a1" "gmail" "" "email" expiredCfg
      true 1000 (.error "boom") none "unused" [sampleRow] (by decide)
      (by decide)).2 401 "Token refresh failed: boom" (by decide)
      (by decide) (.error "providerdown")
    simpa using h

/-- C6: the refresh decision of `get_valid_token` — no (truthy) access
token fails not-authorized; a token with more than 300 s of life left is
returned unchanged with no side effect; a near-expiry token without a
refresh token fails reauthorization-required; a near-expiry token with a
refresh token and a known provider triggers the remote refresh call; in
particular expiry at `now + 200` refreshes and expiry at `now + 400`
does not. -/
theorem C6_refresh_buffer (provider : String) (cfg : Config)
    (now now2 : Int) (refreshOutcome : Except String TokenResp) :
    (truthy cfg.access_token = false →
      get_valid_token provider cfg now now2 refreshOutcome
        = (.httpError 401 "Account not authorized", cfg, [])) ∧
    (truthy cfg.access_token = true →
      ¬ now > cfg.expires_at.getD 0 - 300 →
      get_valid_token provider cfg now now2 refreshOutcome
        = (.ok cfg.access_token, cfg, [])) ∧
    (truthy cfg.access_token = true →
      now > cfg.expires_at.getD 0 - 300 →
      truthy cfg.refresh_token = false →
      get_valid_token provider cfg now now2 refreshOutcome
        = (.httpError 401 "Token expired, please re-authorize", cfg, [])) ∧
    (truthy cfg.access_token = true →
      now > cfg.expires_at.getD 0 - 300 →
      truthy cfg.refresh_token = true →
      oauthProviderKnown provider = true →
      TokenEvent.refreshCall (cfg.refresh_token.getD "")
        ∈ (get_valid_token provider cfg now now2 refreshOutcome).2.2) ∧
    (truthy cfg.access_token = true →
      cfg.expires_at = some (now + 200) →
      truthy cfg.refresh_token = true →
      oauthProviderKnown provider = true →
      TokenEvent.refreshCall (cfg.refresh_token.getD "")
        ∈ (get_valid_token provider cfg now now2 refreshOutcome).2.2) ∧
    (truthy cfg.access_token = true →
      cfg.expires_at = some (now + 400) →
      get_valid_token provider cfg now now2 refreshOutcome
        = (.ok cfg.access_token, cfg, [])) := by
  refine ⟨?_, ?_, ?_, ?_, ?_, ?_⟩
  · intro h1
    simp [get_valid_token, h1]
  · intro h1 h2
    simp [get_valid_token, h1, h2]
  · intro h1 h2 h3
    simp [get_valid_token, h1, h2, h3]
  · intro h1 h2 h3 h4
    cases refreshOutcome <;> simp [get_valid_token, h1, h2, h3, h4]
  · intro h1 h2 h3 h4
    have h2' : now > cfg.expires_at.getD 0 - 300 := by
      rw [h2, Option.getD_some]; omega
    cases refreshOutcome <;> simp [get_valid_token, h1, h2', h3, h4]
  · intro h1 h2
    have h2' : ¬ now > cfg.expires_at.getD 0 - 300 := by
      rw [h2, Option.getD_some]; omega
    simp [get_valid_token, h1, h2']

/-- C6 witness: the refresh decision evaluated at concrete tokens —
expiry 400 s away is served unchanged, expiry 200 s away triggers the
refresh call, a missing token and a missing refresh token fail with the
two authorization errors. -/
theorem C6_refresh_buffer_witness :
    get_valid_token "gmail"
        { access_token := some "t", expires_at := some 1400 } 1000 1000
        (.ok {})
      = (.ok (some "t"),
         { access_token := some "t", expires_at := some 1400 }, []) ∧
    TokenEvent.refreshCall "r"
      ∈ (get_valid_token "gmail"
          { access_token := some "t", refresh_token := some "r",
            expires_at := some 1200 } 1000 1000 (.ok {})).2.2 ∧
    get_valid_token "gmail" { expires_at := some 0 } 1000 1000 (.ok {})
      = (.httpError 401 "Account not authorized",
         { expires_at := some 0 }, []) ∧
    get_valid_token "gmail"
        { access_token := some "t", expires_at := some 0 } 1000 1000
        (.ok {})
      = (.httpError 401 "Token expired, please re-authorize",
         { access_token := some "t", expires_at := some 0 }, []) := by
  refine ⟨?_, ?_, ?_, ?_⟩
  · exact (C6_refresh_buffer "gmail" _ 1000 1000 (.ok {})).2.2.2.2.2
      (by decide) (by decide)
  · have h := (C6_refresh_buffer "gmail"
      { access_token := some "t", refresh_token := some "r",
        expires_at := some 1200 } 1000 1000 (.ok {})).2.2.2.2.1
      (by decide) (by decide) (by decide) (by decide)
    simpa using h
  · exact (C6_refresh_buffer "gmail" _ 1000 1000 (.ok {})).1 (by decide)
  · exact (C6_refresh_buffer "gmail" _ 1000 1000 (.ok {})).2.2.1
      (by decide) (by decide) (by decide)

/-- C7: on a successful refresh the final configuration stores the new
access token and expiry `now2 + expires_in`; the refresh token is
replaced only when the response carries a (truthy) one and otherwise
retained; the effect trace is the refresh call followed by the persist
of exactly that final configuration, and the token handed back is the
persisted one — persistence precedes the return. -/
theorem C7_refresh_persist_before_return (provider : String)
    (cfg : Config) (now now2 : Int) (tokens : TokenResp) (ei : Int)
    (out : TokenGetResult × Config × List TokenEvent)
    (h1 : truthy cfg.access_token = true)
    (h2 : now > cfg.expires_at.getD 0 - 300)
    (h3 : truthy cfg.refresh_token = true)
    (h4 : oauthProviderKnown provider = true)
    (h5 : tokens.expires_in = some ei)
    (hout : out = get_valid_token provider cfg now now2 (.ok tokens)) :
    out.1 = .ok out.2.1.access_token ∧
    out.2.1.access_token = tokens.access_token ∧
    out.2.1.expires_at = some (now2 + ei) ∧
    out.2.1.refresh_token =
      (if truthy tokens.refresh_token then tokens.refresh_token
       else cfg.refresh_token) ∧
    out.2.2 = [.refreshCall (cfg.refresh_token.getD ""),
               .persist out.2.1] := by
  subst hout
  by_cases ht : truthy tokens.refresh_token <;>
    simp [get_valid_token, h1, h2, h3, h4, h5, ht]

/-- C7 witness: a concrete successful refresh of `expiredCfg` by
`newTokens` (which omits the refresh token), applying the persistence
law. -/
theorem C7_refresh_persist_before_return_witness :
    (get_valid_token "gmail" expiredCfg 1000 1001 (.ok newTokens)).1
      = .ok (get_valid_token "gmail" expiredCfg 1000 1001
          (.ok newTokens)).2.1.access_token ∧
    (get_valid_token "gmail" expiredCfg 1000 1001
        (.ok newTokens)).2.1.access_token = newTokens.access_token ∧
    (get_valid_token "gmail" expiredCfg 1000 1001
        (.ok newTokens)).2.1.expires_at = some (1001 + 100) ∧
    (get_valid_token "gmail" expiredCfg 1000 1001
        (.ok newTokens)).2.1.refresh_token =
      (if truthy newTokens.refresh_token then newTokens.refresh_token
       else expiredCfg.refresh_token) ∧
    (get_valid_token "gmail" expiredCfg 1000 1001 (.ok newTokens)).2.2
      = [.refreshCall (expiredCfg.refresh_token.getD ""),
         .persist (get_valid_token "gmail" expiredCfg 1000 1001
           (.ok newTokens)).2.1] :=
  C7_refresh_persist_before_return "gmail" expiredCfg 1000 1001 newTokens
    100 _ (by decide) (by decide) (by decide) (by decide) (by decide) rfl

/-- C8: a successful fresh fetch replaces the (account, kind) scope of
the cache with exactly the new batch (given pairwise-distinct provider
ids in the batch), and writing an empty batch after clearing leaves the
scope empty — replace, not merge. -/
theorem C8_replace_not_merge (account_id provider email
    item_type : String) (cfg : Config) (now now2 : Int)
    (refreshOutcome : Except String TokenResp) (items : List Item)
    (t : Option String) (db db2 : List Row)
    (hty : item_type = if provider == "ticktick" then "task" else "email")
    (hp : provider = "office365" ∨ provider = "office365-shared" ∨
      provider = "gmail" ∨ provider = "ticktick")
    (htok : (get_valid_token provider cfg now now refreshOutcome).1
      = .ok t)
    (hids : (items.map Item.id).Nodup) :
    rowsFor account_id item_type
        (get_account_items account_id provider email cfg true now
          refreshOutcome (.ok items) db).2
      = items.map (mkRow account_id item_type now) ∧
    rowsFor account_id item_type
        (upsert_items account_id item_type now2 []
          (clear_account_items account_id (some item_type) db2))
      = [] := by
  subst hty
  constructor
  · have hw := rowsFor_upsert_items account_id
      (if provider == "ticktick" then "task" else "email") now items
      (clear_account_items account_id
        (some (if provider == "ticktick" then "task" else "email")) db)
      (by rw [rowsFor_clear]; intro r hr; cases hr) hids
    rw [rowsFor_clear, List.nil_append] at hw
    rcases hp with rfl | rfl | rfl | rfl <;>
    · simp only [get_account_items, htok]
      simp
      simpa using hw
  · show rowsFor _ _ (upsert_items _ _ _ [] _) = _
    have : upsert_items account_id
        (if provider == "ticktick" then "task" else "email") now2 []
        (clear_account_items account_id
          (some (if provider == "ticktick" then "task" else "email")) db2)
      = clear_account_items account_id
          (some (if provider == "ticktick" then "task" else "email")) db2 :=
      rfl
    rw [this, rowsFor_clear]

/-- C8 witness: replacing a one-row email cache with a fresh two-item
batch, then with an empty batch. -/
theorem C8_replace_not_merge_witness :
    rowsFor "a1" "email"
        (get_account_items "a1" "gmail" "" validCfg true 5 (.ok {})
          (.ok [crossItemA, sampleItem]) [sampleRow]).2
      = [mkRow "a1" "email" 5 crossItemA, mkRow "a1" "email" 5 sampleItem] ∧
    rowsFor "a1" "email"
        (upsert_items "a1" "email" 9 []
          (clear_account_items "a1" (some "email") [sampleRow]))
      = [] := by
  have h := C8_replace_not_merge "a1" "gmail" "" "email" validCfg 5 9
    (.ok {}) [crossItemA, sampleItem] (some "tok") [sampleRow] [sampleRow]
    (by decide) (by tauto) (by decide) (by decide)
  simpa using h

/-- C10: after a successful remote archive the cache removal selects by
item id alone — every cached row whose id equals the archived id is
removed, whatever account it belongs to, and every row with another id
is untouched; the endpoint reports success. -/
theorem C10_delete_by_id_alone (provider : String) (cfg : Config)
    (now : Int) (refreshOutcome : Except String TokenResp)
    (email_id : String) (db : List Row) (t : Option String)
    (hp : provider = "office365" ∨ provider = "office365-shared" ∨
      provider = "gmail")
    (htok : (get_valid_token provider cfg now now refreshOutcome).1
      = .ok t) :
    (archive_email provider cfg now refreshOutcome (.ok ()) email_id
        db).1 = .ok ∧
    (∀ r ∈ db, r.id = email_id →
      r ∉ (archive_email provider cfg now refreshOutcome (.ok ())
        email_id db).2) ∧
    (∀ r ∈ db, r.id ≠ email_id →
      r ∈ (archive_email provider cfg now refreshOutcome (.ok ())
        email_id db).2) := by
  have harch : archive_email provider cfg now refreshOutcome (.ok ())
      email_id db = (.ok, delete_item email_id db) := by
    rcases hp with rfl | rfl | rfl <;> simp [archive_email, htok]
  rw [harch]
  refine ⟨rfl, ?_, ?_⟩
  · intro r hr hid
    simp [delete_item, List.mem_filter, hid]
  · intro r hr hid
    simp [delete_item, List.mem_filter, hr, hid]

/-- C10 witness: archiving id `x` on a gmail account also removes the
other account's cached row with id `x` and keeps the row with id
`m1`. -/
theorem C10_delete_by_id_alone_witness :
    (archive_email "gmail" validCfg 0 (.ok {}) (.ok ()) "x"
        [crossRowB, sampleRow]).1 = .ok ∧
    crossRowB ∉ (archive_email "gmail" validCfg 0 (.ok {}) (.ok ()) "x"
        [crossRowB, sampleRow]).2 ∧
    sampleRow ∈ (archive_email "gmail" validCfg 0 (.ok {}) (.ok ()) "x"
        [crossRowB, sampleRow]).2 := by
  have h := C10_delete_by_id_alone "gmail" validCfg 0 (.ok {}) "x"
    [crossRowB, sampleRow] (some "tok") (by tauto) (by decide)
  exact ⟨h.1, h.2.1 crossRowB (by decide) (by decide),
    h.2.2 sampleRow (by decide) (by decide)⟩

end EmailKanban
